import Mathlib

/-!
Verification of the diyepw-scripts repository: a shallow embedding of the
year-specification parser (`_parse_years.py`) and of the WRF-NetCDF to
AMY-EPW conversion script (`create_amy_epw_files_from_wrf_netcdf.py`),
with theorems settling the specification's claims about them.
-/

/-- Errors raised by the embedded Python code.  `valueError` models Python's
builtin `ValueError` (raised by `int()` on a bad string, by tuple unpacking
of a `split` of the wrong length, and by `min`/`max` of an empty list);
`invalidRange` models the explicit `Exception("Years must be in the range
1900-...")` of `_parse_years.py`; `keyError` models a pandas `.loc` lookup
of a missing key; `indexError` models `.iloc[0]` on an empty selection. -/
inductive PyErr where
  | valueError : PyErr
  | invalidRange : PyErr
  | keyError : PyErr
  | indexError : PyErr
deriving DecidableEq

deriving instance DecidableEq for Except

/-- Python's `str.split(sep)` for a single-character separator, on the
character list of the string.  `"".split(sep) == [""]`. -/
def splitOnChar (sep : Char) : List Char → List (List Char)
  | [] => [[]]
  | c :: rest =>
      let r := splitOnChar sep rest
      if c = sep then [] :: r
      else
        match r with
        | [] => [[c]]
        | g :: gs => (c :: g) :: gs

/-- Python's `int(s)` on a string of decimal digits: succeeds on a nonempty
all-digit string, raises `ValueError` otherwise. -/
def parseInt (cs : List Char) : Except PyErr ℤ :=
  if cs ≠ [] ∧ cs.all Char.isDigit then
    Except.ok (Int.ofNat (cs.foldl (fun acc c => 10 * acc + (c.toNat - 48)) 0))
  else Except.error PyErr.valueError

/-- Python's `list(range(a, b))`: the integers `a, a+1, ..., b-1`, empty
when `b ≤ a`. -/
def pyRangeList (a b : ℤ) : List ℤ :=
  (List.range (b - a).toNat).map (fun i => a + i)

/-- One comma-separated entry of the years argument (`_parse_years.py`,
lines 13-17): a hyphen means a range `start-end` contributing
`range(int(start), int(end) + 1)`; otherwise a single year.  Tuple
unpacking of a split with more or fewer than two parts raises
`ValueError`. -/
def parse_year_part (cs : List Char) : Except PyErr (List ℤ) :=
  if cs.contains '-' then
    match splitOnChar '-' cs with
    | [a, b] => do
        let start_year ← parseInt a
        let end_year ← parseInt b
        Except.ok (pyRangeList start_year (end_year + 1))
    | _ => Except.error PyErr.valueError
  else do
    let y ← parseInt cs
    Except.ok [y]

/-- The accumulation loop of `parse_years` (`_parse_years.py`, lines 10-17):
spaces are removed, the string is split on commas, and each entry
contributes its years in order. -/
def to_years_list (years_str : String) : Except PyErr (List ℤ) :=
  (splitOnChar ',' (years_str.toList.filter (fun c => c ≠ ' '))).foldlM
    (fun acc part => do
      let l ← parse_year_part part
      Except.ok (acc ++ l)) []

/-- The collection stage of `parse_years` (`_parse_years.py`, lines 10-18):
accumulate the years of every entry, then sort ascending in place
(`years_list.sort()`; Python's sort is a stable ascending sort). -/
def collect_years (years_str : String) : Except PyErr (List ℤ) :=
  (to_years_list years_str).map (fun ys => List.insertionSort (fun a b => a ≤ b) ys)

/-- Python's `min(l)`: raises `ValueError` on an empty list. -/
def pyMin : List ℤ → Except PyErr ℤ
  | [] => Except.error PyErr.valueError
  | x :: xs => Except.ok (xs.foldl min x)

/-- Python's `max(l)`: raises `ValueError` on an empty list. -/
def pyMax : List ℤ → Except PyErr ℤ
  | [] => Except.error PyErr.valueError
  | x :: xs => Except.ok (xs.foldl max x)

/-- The validation stage of `parse_years` (`_parse_years.py`, lines 20-23):
raise unless all years lie between 1900 and the present year.
`this_year` stands for `datetime.datetime.now().year`. -/
def validate_years (this_year : ℤ) (ys : List ℤ) : Except PyErr (List ℤ) := do
  let mn ← pyMin ys
  let mx ← pyMax ys
  if mn < 1900 ∨ mx > this_year then Except.error PyErr.invalidRange
  else Except.ok ys

/-- `parse_years` of `_parse_years.py`: collect and sort the years, then
validate them against `[1900, this_year]`. -/
def parse_years (this_year : ℤ) (years_str : String) : Except PyErr (List ℤ) :=
  (collect_years years_str).bind (validate_years this_year)

/-- The batch driver `create_amy_epw_files_for_years_and_wmos.py` parses the
years argument first (line 92) and only then hands the parsed list to the
processing stage (line 95); a parse failure therefore aborts before any
station-year processing starts. -/
def run_batch {α : Type} (this_year : ℤ) (years_str : String)
    (process : List ℤ → α) : Except PyErr α :=
  (parse_years this_year years_str).map process

lemma collect_years_sorted (s : String) (ys : List ℤ)
    (h : collect_years s = Except.ok ys) :
    List.Sorted (fun a b : ℤ => a ≤ b) ys := by
  unfold collect_years at h
  cases hf : to_years_list s with
  | error e => rw [hf] at h; simp [Except.map] at h
  | ok l =>
      rw [hf] at h
      simp only [Except.map] at h
      cases h
      exact List.sorted_insertionSort (fun a b : ℤ => a ≤ b) l

lemma validate_years_nil (y : ℤ) :
    validate_years y ([] : List ℤ) = Except.error PyErr.valueError := rfl

lemma validate_years_cons (y z : ℤ) (zs : List ℤ) :
    validate_years y (z :: zs) =
      if zs.foldl min z < 1900 ∨ zs.foldl max z > y then Except.error PyErr.invalidRange
      else Except.ok (z :: zs) := rfl

lemma validate_years_ok_eq (y : ℤ) (l ys : List ℤ)
    (h : validate_years y l = Except.ok ys) : ys = l := by
  cases l with
  | nil => rw [validate_years_nil] at h; cases h
  | cons z zs =>
      rw [validate_years_cons] at h
      by_cases hc : zs.foldl min z < 1900 ∨ zs.foldl max z > y
      · rw [if_pos hc] at h; cases h
      · rw [if_neg hc] at h; cases h; rfl

lemma parse_years_ok_collect (y : ℤ) (s : String) (ys : List ℤ)
    (h : parse_years y s = Except.ok ys) : collect_years s = Except.ok ys := by
  unfold parse_years at h
  cases hc : collect_years s with
  | error e => rw [hc] at h; simp [Except.bind] at h
  | ok l =>
      rw [hc] at h
      simp only [Except.bind] at h
      exact congrArg Except.ok (validate_years_ok_eq y l ys h).symm

lemma foldl_min_lt_iff (c z : ℤ) (zs : List ℤ) :
    zs.foldl min z < c ↔ ∃ w ∈ z :: zs, w < c := by
  induction zs generalizing z with
  | nil => simp
  | cons a t ih =>
      rw [List.foldl_cons, ih]
      constructor
      · rintro ⟨w, hw, hlt⟩
        rcases List.mem_cons.mp hw with rfl | hw
        · rcases min_lt_iff.mp hlt with h1 | h1
          · exact ⟨z, List.mem_cons_self _ _, h1⟩
          · exact ⟨a, List.mem_cons_of_mem _ (List.mem_cons_self _ _), h1⟩
        · exact ⟨w, List.mem_cons_of_mem _ (List.mem_cons_of_mem _ hw), hlt⟩
      · rintro ⟨w, hw, hlt⟩
        rcases List.mem_cons.mp hw with rfl | hw
        · exact ⟨min w a, List.mem_cons_self _ _, min_lt_iff.mpr (Or.inl hlt)⟩
        · rcases List.mem_cons.mp hw with rfl | hw
          · exact ⟨min z w, List.mem_cons_self _ _, min_lt_iff.mpr (Or.inr hlt)⟩
          · exact ⟨w, List.mem_cons_of_mem _ hw, hlt⟩

lemma foldl_max_gt_iff (c z : ℤ) (zs : List ℤ) :
    c < zs.foldl max z ↔ ∃ w ∈ z :: zs, c < w := by
  induction zs generalizing z with
  | nil => simp
  | cons a t ih =>
      rw [List.foldl_cons, ih]
      constructor
      · rintro ⟨w, hw, hlt⟩
        rcases List.mem_cons.mp hw with rfl | hw
        · rcases lt_max_iff.mp hlt with h1 | h1
          · exact ⟨z, List.mem_cons_self _ _, h1⟩
          · exact ⟨a, List.mem_cons_of_mem _ (List.mem_cons_self _ _), h1⟩
        · exact ⟨w, List.mem_cons_of_mem _ (List.mem_cons_of_mem _ hw), hlt⟩
      · rintro ⟨w, hw, hlt⟩
        rcases List.mem_cons.mp hw with rfl | hw
        · exact ⟨max w a, List.mem_cons_self _ _, lt_max_iff.mpr (Or.inl hlt)⟩
        · rcases List.mem_cons.mp hw with rfl | hw
          · exact ⟨max z w, List.mem_cons_self _ _, lt_max_iff.mpr (Or.inr hlt)⟩
          · exact ⟨w, List.mem_cons_of_mem _ hw, hlt⟩

/-- Claim C5 (corrected): `parse_years` does not deduplicate — the input
`"2000,2000"` parses to `[2000, 2000]`, which contains a duplicate. -/
theorem C5_no_dedup_counterexample :
    parse_years 2026 ("2000,2000") = Except.ok [2000, 2000] ∧
    ¬ List.Nodup ([2000, 2000] : List ℤ) := by
  constructor
  · decide
  · decide

/-- Claim C5 (amended): for every valid years string, `parse_years` returns
the requested years as a list sorted ascending, with duplicates arising
from overlapping entries preserved rather than removed; in particular
`"2000, 2003-2005"` parses to `[2000, 2003, 2004, 2005]`. -/
theorem C5_parse_years_sorted :
    (∀ (y : ℤ) (s : String) (ys : List ℤ), parse_years y s = Except.ok ys →
      List.Sorted (fun a b : ℤ => a ≤ b) ys) ∧
    parse_years 2026 ("2000, 2003-2005") = Except.ok [2000, 2003, 2004, 2005] := by
  constructor
  · intro y s ys h
    exact collect_years_sorted s ys (parse_years_ok_collect y s ys h)
  · decide

/-- Witness for C5's amended claim at the concrete scenario input. -/
theorem C5_parse_years_sorted_witness :
    List.Sorted (fun a b : ℤ => a ≤ b) [2000, 2003, 2004, 2005] :=
  C5_parse_years_sorted.1 2026 ("2000, 2003-2005") [2000, 2003, 2004, 2005]
    C5_parse_years_sorted.2

/-- Claim C6: when the collection stage succeeds with a nonempty year list,
`parse_years` raises `invalidRange` exactly when some requested year lies
below 1900 or above the current year; when all years are in bounds it
returns the sorted list; and an `invalidRange` failure aborts the batch
driver before the processing stage is ever applied. -/
theorem C6_invalid_range_iff (y : ℤ) (s : String) (ys : List ℤ)
    (hok : collect_years s = Except.ok ys) (hne : ys ≠ []) :
    (parse_years y s = Except.error PyErr.invalidRange ↔
      ∃ yr ∈ ys, yr < 1900 ∨ y < yr) ∧
    ((∀ yr ∈ ys, 1900 ≤ yr ∧ yr ≤ y) → parse_years y s = Except.ok ys) ∧
    (∀ (β : Type) (process : List ℤ → β),
      parse_years y s = Except.error PyErr.invalidRange →
      run_batch y s process = Except.error PyErr.invalidRange) := by
  have hp : parse_years y s = validate_years y ys := by
    unfold parse_years
    rw [hok]
    simp [Except.bind]
  obtain ⟨z, zs, rfl⟩ : ∃ z zs, ys = z :: zs := by
    cases ys with
    | nil => exact absurd rfl hne
    | cons z zs => exact ⟨z, zs, rfl⟩
  have hkey : (zs.foldl min z < 1900 ∨ zs.foldl max z > y) ↔
      ∃ yr ∈ z :: zs, yr < 1900 ∨ y < yr := by
    rw [foldl_min_lt_iff, gt_iff_lt, foldl_max_gt_iff]
    constructor
    · rintro (⟨w, hw, hlt⟩ | ⟨w, hw, hlt⟩)
      · exact ⟨w, hw, Or.inl hlt⟩
      · exact ⟨w, hw, Or.inr hlt⟩
    · rintro ⟨w, hw, hlt | hlt⟩
      · exact Or.inl ⟨w, hw, hlt⟩
      · exact Or.inr ⟨w, hw, hlt⟩
  refine ⟨?_, ?_, ?_⟩
  · rw [hp, validate_years_cons]
    by_cases hc : zs.foldl min z < 1900 ∨ zs.foldl max z > y
    · rw [if_pos hc]
      exact ⟨fun _ => hkey.mp hc, fun _ => rfl⟩
    · rw [if_neg hc]
      exact ⟨fun h => Except.noConfusion h, fun h => absurd (hkey.mpr h) hc⟩
  · intro hall
    rw [hp, validate_years_cons, if_neg]
    intro hc
    obtain ⟨w, hw, hlt⟩ := hkey.mp hc
    obtain ⟨h1, h2⟩ := hall w hw
    rcases hlt with h3 | h3
    · omega
    · omega
  · intro β process herr
    simp [run_batch, herr, Except.map]

/-- Witness for C6 at a concrete in-bounds input. -/
theorem C6_invalid_range_witness :
    parse_years 2026 ("2000") = Except.ok [2000] :=
  (C6_invalid_range_iff 2026 ("2000") [2000] (by decide) (by decide)).2.1
    (by decide)

/-- Claim C10: an inverted range `A-B` with `A > B` contributes no years
(Python's `range` is empty); with another year present the inverted range
is silently dropped (`"2000,2005-2003"` parses to `[2000]`); a string of
only inverted ranges makes `min` fail on an empty list with a
`ValueError`, which is not the invalid-range error. -/
theorem C10_inverted_range_behavior :
    (∀ a b : ℤ, b < a → pyRangeList a (b + 1) = []) ∧
    parse_years 2026 ("2000,2005-2003") = Except.ok [2000] ∧
    parse_years 2026 ("2005-2003") = Except.error PyErr.valueError ∧
    PyErr.valueError ≠ PyErr.invalidRange := by
  refine ⟨?_, by decide, by decide, by decide⟩
  intro a b hba
  simp [pyRangeList, Int.toNat_eq_zero.mpr (by omega : b + 1 - a ≤ 0)]

/-- Witness for C10's inverted-range emptiness at the concrete range
`2005-2003`. -/
theorem C10_inverted_range_witness : pyRangeList 2005 (2003 + 1) = [] :=
  C10_inverted_range_behavior.1 2005 2003 (by decide)

/-- Dry-bulb temperature injection
(`create_amy_epw_files_from_wrf_netcdf.py`, line 117):
`meteorology.set("Tdb", df.T2 + 273.15)` adds 273.15 to every T2 sample. -/
def tdb_injected (t2 : List ℚ) : List ℚ :=
  t2.map (fun t => t + 273.15)

/-- Claim C4: at every timestamp the injected dry-bulb temperature is the
source T2 value plus exactly 273.15 — the value is strictly increased,
and in particular it is not the value decreased by 273.15. -/
theorem C4_tdb_adds_273_15 (t2 : List ℚ) (i : ℕ) (t : ℚ)
    (h : t2[i]? = some t) :
    (tdb_injected t2)[i]? = some (t + 273.15) ∧
    t < t + 273.15 ∧ t + 273.15 ≠ t - 273.15 := by
  refine ⟨?_, by linarith [show (0:ℚ) < 273.15 by norm_num], ?_⟩
  · rw [tdb_injected, List.getElem?_map, h]
    rfl
  · intro he
    have : (273.15 : ℚ) = -273.15 := by linarith
    norm_num at this

/-- Witness for C4 at a concrete one-sample series. -/
theorem C4_tdb_adds_273_15_witness :
    (tdb_injected [20])[0]? = some ((20 : ℚ) + 273.15) ∧
    (20 : ℚ) < 20 + 273.15 ∧ (20 : ℚ) + 273.15 ≠ 20 - 273.15 :=
  C4_tdb_adds_273_15 [20] 0 20 rfl

/-- `np.sum` applied to a list of equal-length series stacks them into a
single two-dimensional array and, with no axis argument, sums every element
of it into one scalar. -/
def np_sum_all (xss : List (List ℚ)) : ℚ :=
  xss.flatten.foldl (fun a b => a + b) 0

/-- Liquid-precipitation injection
(`create_amy_epw_files_from_wrf_netcdf.py`, line 114):
`meteorology.set("LiqPrecDepth", np.sum([df.RAINC, df.RAINSH, df.RAINNC]))`
injects the single scalar `np.sum` of the three series. -/
def liq_prec_depth_injected (rainc rainsh rainnc : List ℚ) : ℚ :=
  np_sum_all [rainc, rainsh, rainnc]

/-- The per-timestamp sum of the three precipitation components, as the
specification describes the injected value. -/
def liq_prec_depth_claimed (rainc rainsh rainnc : List ℚ) : List ℚ :=
  List.zipWith (fun a b => a + b) (List.zipWith (fun a b => a + b) rainc rainsh) rainnc

/-- Claim C2 is violated by the code: on the two-timestamp input
`RAINC = [1, 2]`, `RAINSH = [3, 4]`, `RAINNC = [5, 6]` the code injects the
single grand total 21, while the per-timestamp component sums are
`[9, 12]`; no constant value injected at both timestamps can equal the
per-timestamp sums. -/
theorem C2_liq_prec_scalar_bug :
    liq_prec_depth_injected [1, 2] [3, 4] [5, 6] = 21 ∧
    liq_prec_depth_claimed [1, 2] [3, 4] [5, 6] = [9, 12] ∧
    ∀ c : ℚ, ¬ List.replicate 2 c = liq_prec_depth_claimed [1, 2] [3, 4] [5, 6] := by
  refine ⟨by norm_num [liq_prec_depth_injected, np_sum_all], ?_, ?_⟩
  · norm_num [liq_prec_depth_claimed]
  · intro c h
    simp [liq_prec_depth_claimed, List.replicate] at h
    obtain ⟨h1, h2⟩ := h
    rw [h1] at h2
    norm_num at h2

/-- The per-station merge of `get_wrf_data`
(`create_amy_epw_files_from_wrf_netcdf.py`, lines 77-81): the nearest-cell
series extracted from each snapshot file, taken in sorted filename order,
are concatenated one after another by `pd.concat`; a row is a pair of a
timestamp and the row's data. -/
def merge_snapshots {α : Type} (snaps : List (List (ℕ × α))) : List (ℕ × α) :=
  snaps.foldl (fun acc s => acc ++ s) []

/-- Keep only the last-seen row for each timestamp. -/
def keepLastByTime {α : Type} : List (ℕ × α) → List (ℕ × α)
  | [] => []
  | r :: rest =>
      if rest.any (fun s => s.1 = r.1) then keepLastByTime rest
      else r :: keepLastByTime rest

/-- The merge the specification claims: sort by timestamp ascending and
drop exact-duplicate timestamps keeping the last-seen value. -/
def sort_dedup_keep_last {α : Type} (rows : List (ℕ × α)) : List (ℕ × α) :=
  List.insertionSort (fun a b => a.1 ≤ b.1) (keepLastByTime rows)

/-- Claim C7 is false on the code: with two snapshots overlapping at
timestamp 1, the merged series is not the sorted-deduplicated series the
claim describes, and its timestamps contain a duplicate, so they are not
strictly increasing. -/
theorem C7_overlap_counterexample :
    merge_snapshots [[(0, 10), (1, 11)], [(1, 99), (2, 12)]] ≠
      sort_dedup_keep_last (merge_snapshots [[(0, 10), (1, 11)], [(1, 99), (2, 12)]]) ∧
    ¬ List.Nodup ((merge_snapshots [[(0, 10), (1, 11)], [(1, 99), (2, 12)]]).map Prod.fst) := by
  refine ⟨by decide, by decide⟩

lemma foldl_append_eq_flatten {α : Type} (l : List (List α)) (acc : List α) :
    l.foldl (fun a s => a ++ s) acc = acc ++ l.flatten := by
  induction l generalizing acc with
  | nil => simp
  | cons x xs ih => simp [List.foldl_cons, ih]

/-- Claim C7 (amended): the extracted per-station series is the plain
concatenation of the per-snapshot nearest-cell series in sorted filename
order; no timestamp sort and no deduplication is applied, so a timestamp
covered by two snapshots appears twice, the later snapshot's row after the
earlier one's. -/
theorem C7_concatenation_only :
    (∀ (α : Type) (snaps : List (List (ℕ × α))), merge_snapshots snaps = snaps.flatten) ∧
    merge_snapshots [[(0, 10), (1, 11)], [(1, 99), (2, 12)]] =
      [(0, 10), (1, 11), (1, 99), (2, 12)] := by
  constructor
  · intro α snaps
    rw [merge_snapshots, foldl_append_eq_flatten]
    simp
  · decide

/-- A pandas `.loc[key]` read on a timestamp-indexed frame: the data of
the first row carrying that timestamp, if any.  Timestamps are modelled as
the hour's index within the year (hour 21:00 of Dec 31 of 2009 is 8757). -/
def df_get {α : Type} (df : List (ℕ × α)) (k : ℕ) : Option α :=
  (df.find? (fun r => r.1 = k)).map Prod.snd

/-- A pandas `.loc[key]` read as an expression: raises `KeyError` when the
timestamp is absent. -/
def df_loc_get {α : Type} (df : List (ℕ × α)) (k : ℕ) : Except PyErr α :=
  match df_get df k with
  | some v => Except.ok v
  | none => Except.error PyErr.keyError

/-- A pandas `.loc[key] = row` assignment: overwrite the row when the
timestamp is present, append a new row otherwise. -/
def df_loc_set {α : Type} (df : List (ℕ × α)) (k : ℕ) (v : α) : List (ℕ × α) :=
  if df.any (fun r => r.1 = k) then df.map (fun r => if r.1 = k then (k, v) else r)
  else df ++ [(k, v)]

/-- Lines 101-102 of `create_amy_epw_files_from_wrf_netcdf.py`: the rows
for hours 22:00 and 23:00 of Dec 31 (hour indexes 8758 and 8759) are each
assigned the row read at hour 21:00 (hour index 8757); the second
assignment re-reads hour 21:00 from the updated frame. -/
def fill_missing_trailing_hours {α : Type} (df : List (ℕ × α)) :
    Except PyErr (List (ℕ × α)) :=
  (df_loc_get df 8757).bind (fun v21 =>
    let df1 := df_loc_set df 8758 v21
    (df_loc_get df1 8757).map (fun v21b => df_loc_set df1 8759 v21b))

lemma find?_append_some {α : Type} (p : α → Bool) (l1 l2 : List α) (x : α)
    (h : l1.find? p = some x) : (l1 ++ l2).find? p = some x := by
  induction l1 with
  | nil => cases h
  | cons a t ih =>
      rw [List.cons_append]
      by_cases hp : p a
      · rw [List.find?_cons_of_pos _ hp] at h ⊢
        exact h
      · rw [List.find?_cons_of_neg _ hp] at h ⊢
        exact ih h

lemma find?_append_none {α : Type} (p : α → Bool) (l1 l2 : List α)
    (h : l1.find? p = none) : (l1 ++ l2).find? p = l2.find? p := by
  induction l1 with
  | nil => simp
  | cons a t ih =>
      rw [List.cons_append]
      by_cases hp : p a
      · rw [List.find?_cons_of_pos _ hp] at h
        cases h
      · rw [List.find?_cons_of_neg _ hp] at h
        rw [List.find?_cons_of_neg _ hp]
        exact ih h

/-- Claim C8: when hour 8757 (21:00 of Dec 31) is present and is the last
available hour of the merged series — the trailing hours being absent —
the fill succeeds without a key error, both missing trailing rows 8758 and
8759 receive the values of hour 8757, and all rows at or before hour 8757
are left unchanged. -/
theorem C8_carry_forward {α : Type} (df : List (ℕ × α)) (v : α)
    (h21 : df_get df 8757 = some v)
    (hlast : ∀ r ∈ df, r.1 ≤ 8757) :
    ∃ df2, fill_missing_trailing_hours df = Except.ok df2 ∧
      df_get df2 8758 = some v ∧ df_get df2 8759 = some v ∧
      ∀ k, k ≤ 8757 → df_get df2 k = df_get df k := by
  obtain ⟨r21, hf21, hr21⟩ := Option.map_eq_some'.mp h21
  have hnot58 : ¬ df.any (fun r => r.1 = 8758) = true := by
    intro hany
    rw [List.any_eq_true] at hany
    obtain ⟨r, hrmem, hp⟩ := hany
    have h2 := hlast r hrmem
    simp only [decide_eq_true_eq] at hp
    omega
  have hset1 : df_loc_set df 8758 v = df ++ [(8758, v)] := by
    rw [df_loc_set, if_neg hnot58]
  have hget1 : df_get (df ++ [(8758, v)]) 8757 = some v := by
    rw [df_get, find?_append_some _ _ _ _ hf21, Option.map_some', hr21]
  have hnot59 : ¬ (df ++ [(8758, v)]).any (fun r => r.1 = 8759) = true := by
    intro hany
    rw [List.any_eq_true] at hany
    obtain ⟨r, hrmem, hp⟩ := hany
    simp only [decide_eq_true_eq] at hp
    rcases List.mem_append.mp hrmem with hm | hm
    · have := hlast r hm
      omega
    · rw [List.mem_singleton] at hm
      rw [hm] at hp
      omega
  have hset2 : df_loc_set (df ++ [(8758, v)]) 8759 v = (df ++ [(8758, v)]) ++ [(8759, v)] := by
    rw [df_loc_set, if_neg hnot59]
  have hfill : fill_missing_trailing_hours df =
      Except.ok ((df ++ [(8758, v)]) ++ [(8759, v)]) := by
    rw [fill_missing_trailing_hours]
    simp only [df_loc_get, h21, hset1, hget1, Except.bind, Except.map, hset2]
  refine ⟨(df ++ [(8758, v)]) ++ [(8759, v)], hfill, ?_, ?_, ?_⟩
  · have hnone : df.find? (fun r : ℕ × α => r.1 = 8758) = none := by
      rw [List.find?_eq_none]
      intro x hx
      simp only [decide_eq_true_eq]
      have := hlast x hx
      omega
    have hsing : List.find? (fun r : ℕ × α => r.1 = 8758) [(8758, v)] = some (8758, v) :=
      List.find?_cons_of_pos _ (by simp)
    have h1 : (df ++ [(8758, v)]).find? (fun r : ℕ × α => r.1 = 8758) = some (8758, v) := by
      rw [find?_append_none _ _ _ hnone]
      exact hsing
    rw [df_get, find?_append_some _ _ _ _ h1, Option.map_some']
  · have hnone : df.find? (fun r : ℕ × α => r.1 = 8759) = none := by
      rw [List.find?_eq_none]
      intro x hx
      simp only [decide_eq_true_eq]
      have := hlast x hx
      omega
    have hs58 : List.find? (fun r : ℕ × α => r.1 = 8759) [(8758, v)] = none := by
      rw [List.find?_eq_none]
      intro x hx
      rw [List.mem_singleton] at hx
      subst hx
      simp
    have h1 : (df ++ [(8758, v)]).find? (fun r : ℕ × α => r.1 = 8759) = none := by
      rw [find?_append_none _ _ _ hnone]
      exact hs58
    have hs59 : List.find? (fun r : ℕ × α => r.1 = 8759) [(8759, v)] = some (8759, v) :=
      List.find?_cons_of_pos _ (by simp)
    rw [df_get, find?_append_none _ _ _ h1, hs59, Option.map_some']
  · intro k hk
    rw [df_get, df_get]
    cases hf : df.find? (fun r : ℕ × α => r.1 = k) with
    | some r =>
        rw [find?_append_some _ _ _ _ (find?_append_some _ _ _ _ hf)]
    | none =>
        have hs58 : List.find? (fun r : ℕ × α => r.1 = k) [(8758, v)] = none := by
          rw [List.find?_eq_none]
          intro x hx
          rw [List.mem_singleton] at hx
          subst hx
          simp only [decide_eq_true_eq]
          omega
        have hs59 : List.find? (fun r : ℕ × α => r.1 = k) [(8759, v)] = none := by
          rw [List.find?_eq_none]
          intro x hx
          rw [List.mem_singleton] at hx
          subst hx
          simp only [decide_eq_true_eq]
          omega
        have e1 : (df ++ [(8758, v)]).find? (fun r : ℕ × α => r.1 = k) = none := by
          rw [find?_append_none _ _ _ hf]
          exact hs58
        rw [find?_append_none _ _ _ e1, hs59]

/-- Witness for C8 at a concrete two-row frame ending at hour 8757. -/
theorem C8_carry_forward_witness :
    ∃ df2, fill_missing_trailing_hours [(8756, (1 : ℚ)), (8757, 2)] = Except.ok df2 ∧
      df_get df2 8758 = some 2 ∧ df_get df2 8759 = some 2 ∧
      ∀ k, k ≤ 8757 → df_get df2 k = df_get [(8756, (1 : ℚ)), (8757, 2)] k :=
  C8_carry_forward [(8756, (1 : ℚ)), (8757, 2)] 2 (by decide) (by decide)

/-- One row of the static weather-station reference table
`Weather_Stations_by_County.csv`, with the columns the lookup reads. -/
structure StationRow where
  wmo : ℤ
  lat : ℚ
  long : ℚ
deriving DecidableEq

/-- `get_lat_long_by_wmo_index` of `create_amy_epw_files_from_wrf_netcdf.py`
(lines 25-33): filter the reference table on the "Station WMO Identifier"
column, take the first matching row with `.iloc[0]` — which raises
`IndexError` when the selection is empty — and return its latitude and
longitude. -/
def get_lat_long_by_wmo_index (table : List StationRow) (wmo_index : ℤ) :
    Except PyErr (ℚ × ℚ) :=
  match table.filter (fun r => r.wmo = wmo_index) with
  | [] => Except.error PyErr.indexError
  | r :: _ => Except.ok (r.lat, r.long)

/-- Claim C9: the station lookup returns the latitude/longitude of a
matching row of the static reference table when the identifier is present,
and fails — the `UnknownStation` outcome, realised as the `IndexError` of
`.iloc[0]` on an empty selection — when the identifier is absent. -/
theorem C9_station_lookup (table : List StationRow) (wmo_index : ℤ) :
    ((∃ r ∈ table, r.wmo = wmo_index) →
      ∃ r ∈ table, r.wmo = wmo_index ∧
        get_lat_long_by_wmo_index table wmo_index = Except.ok (r.lat, r.long)) ∧
    ((∀ r ∈ table, r.wmo ≠ wmo_index) →
      get_lat_long_by_wmo_index table wmo_index = Except.error PyErr.indexError) := by
  constructor
  · rintro ⟨r0, hr0, hw0⟩
    cases hf : table.filter (fun r => r.wmo = wmo_index) with
    | nil =>
        exfalso
        have hmem : r0 ∈ table.filter (fun r => r.wmo = wmo_index) := by
          rw [List.mem_filter]
          exact ⟨hr0, by simp [hw0]⟩
        rw [hf] at hmem
        exact List.not_mem_nil r0 hmem
    | cons r rest =>
        have hrmem : r ∈ table.filter (fun r => r.wmo = wmo_index) := by
          rw [hf]
          exact List.mem_cons_self _ _
        rw [List.mem_filter] at hrmem
        refine ⟨r, hrmem.1, by simpa using hrmem.2, ?_⟩
        rw [get_lat_long_by_wmo_index, hf]
  · intro hall
    have hf : table.filter (fun r => r.wmo = wmo_index) = [] := by
      rw [List.filter_eq_nil_iff]
      intro a ha
      simp [hall a ha]
    rw [get_lat_long_by_wmo_index, hf]

/-- The relative-humidity expression injected at line 139 of
`create_amy_epw_files_from_wrf_netcdf.py`:
`df.Q2 / (379.90516 / df.PSFC) * np.exp(17.2693882 * (df.T2 - 273.16) / (df.T2 - 35.86))`.
By Python operator precedence the quotient is MULTIPLIED by the
exponential. -/
noncomputable def rh_injected (q psfc t2 : ℝ) : ℝ :=
  q / (379.90516 / psfc) * Real.exp (17.2693882 * (t2 - 273.16) / (t2 - 35.86))

/-- The relative-humidity formula as the specification, and the code's own
comment at lines 124-138, state it: the exponential is part of the
denominator. -/
noncomputable def rh_claimed (q psfc t2 : ℝ) : ℝ :=
  q / ((379.90516 / psfc) * Real.exp (17.2693882 * (t2 - 273.16) / (t2 - 35.86)))

/-- Claim C1 is violated by the code: at specific humidity 1, surface
pressure 379.90516 and temperature 308.16 K the injected value is
`exp x` for a positive `x` while the documented formula gives its
reciprocal; the two differ. -/
theorem C1_rh_exp_misplaced :
    rh_injected 1 379.90516 308.16 ≠ rh_claimed 1 379.90516 308.16 := by
  have hx : (0:ℝ) < 86346941 / 38900000 := by norm_num
  have hgt : 1 < Real.exp ((86346941 : ℝ) / 38900000) := Real.one_lt_exp_iff.mpr hx
  have hinv : (Real.exp ((86346941 : ℝ) / 38900000))⁻¹ < 1 := inv_lt_one_of_one_lt₀ hgt
  have e1 : rh_injected 1 379.90516 308.16 = Real.exp ((86346941 : ℝ) / 38900000) := by
    rw [rh_injected]
    norm_num
  have e2 : rh_claimed 1 379.90516 308.16 = (Real.exp ((86346941 : ℝ) / 38900000))⁻¹ := by
    rw [rh_claimed]
    norm_num
  rw [e1, e2]
  intro he
  rw [he] at hgt
  linarith

/-- `np.arctan2(y, x)`: the angle of the vector `(x, y)`, in `(-π, π]`. -/
noncomputable def np_arctan2 (y x : ℝ) : ℝ :=
  if 0 < x then Real.arctan (y / x)
  else if x < 0 then
    (if 0 ≤ y then Real.arctan (y / x) + Real.pi else Real.arctan (y / x) - Real.pi)
  else
    (if 0 < y then Real.pi / 2 else if y < 0 then -(Real.pi / 2) else 0)

/-- `np.degrees`: radians to degrees. -/
noncomputable def np_degrees (r : ℝ) : ℝ :=
  r * (180 / Real.pi)

/-- `convert_wind_vectors_to_speed_and_dir`
(`create_amy_epw_files_from_wrf_netcdf.py`, lines 9-23): the speed is the
Euclidean norm of the two components and the direction is the
two-argument arctangent converted to degrees; nothing normalizes the
direction into `[0, 360)`. -/
noncomputable def convert_wind_vectors_to_speed_and_dir (u v : ℝ) : ℝ × ℝ :=
  (Real.sqrt (u ^ 2 + v ^ 2), np_degrees (np_arctan2 v u))

lemma np_arctan2_mem (y x : ℝ) :
    -Real.pi < np_arctan2 y x ∧ np_arctan2 y x ≤ Real.pi := by
  have hpi := Real.pi_pos
  have ha1 := Real.arctan_lt_pi_div_two (y / x)
  have ha2 := Real.neg_pi_div_two_lt_arctan (y / x)
  rw [np_arctan2]
  by_cases h1 : 0 < x
  · rw [if_pos h1]
    constructor <;> linarith
  · rw [if_neg h1]
    by_cases h2 : x < 0
    · rw [if_pos h2]
      by_cases h3 : 0 ≤ y
      · rw [if_pos h3]
        have hyx : y / x ≤ 0 := div_nonpos_of_nonneg_of_nonpos h3 (le_of_lt h2)
        have hle := Real.arctan_strictMono.monotone hyx
        rw [Real.arctan_zero] at hle
        constructor <;> linarith
      · rw [if_neg h3]
        push_neg at h3
        have hyx : 0 < y / x := div_pos_of_neg_of_neg h3 h2
        have hlt := Real.arctan_strictMono hyx
        rw [Real.arctan_zero] at hlt
        constructor <;> linarith
    · rw [if_neg h2]
      by_cases h3 : 0 < y
      · rw [if_pos h3]
        constructor <;> linarith
      · rw [if_neg h3]
        by_cases h4 : y < 0
        · rw [if_pos h4]
          constructor <;> linarith
        · rw [if_neg h4]
          constructor <;> linarith

lemma np_degrees_bounds (r : ℝ) (h1 : -Real.pi < r) (h2 : r ≤ Real.pi) :
    -180 < np_degrees r ∧ np_degrees r ≤ 180 := by
  have hpi := Real.pi_pos
  have hc : (0:ℝ) < 180 / Real.pi := by positivity
  have he : Real.pi * (180 / Real.pi) = 180 := by field_simp
  rw [np_degrees]
  constructor
  · linarith [mul_lt_mul_of_pos_right h1 hc]
  · linarith [mul_le_mul_of_nonneg_right h2 (le_of_lt hc)]

/-- Claim C3 is false on the code: for `u = 3`, `v = -4` the returned
direction is negative, so it does not lie in `[0, 360)`. -/
theorem C3_direction_not_normalized :
    ¬ (0 ≤ (convert_wind_vectors_to_speed_and_dir 3 (-4)).2 ∧
       (convert_wind_vectors_to_speed_and_dir 3 (-4)).2 < 360) := by
  intro hcl
  have h3 : (0:ℝ) < 3 := by norm_num
  have harct : np_arctan2 (-4) 3 = Real.arctan ((-4:ℝ) / 3) := by
    rw [np_arctan2, if_pos h3]
  have hneg : Real.arctan ((-4:ℝ) / 3) < 0 := by
    have hlt : ((-4:ℝ) / 3) < 0 := by norm_num
    calc Real.arctan ((-4:ℝ) / 3) < Real.arctan 0 := Real.arctan_strictMono hlt
    _ = 0 := Real.arctan_zero
  have hc : (0:ℝ) < 180 / Real.pi := by positivity
  have hdir : (convert_wind_vectors_to_speed_and_dir 3 (-4)).2 < 0 := by
    simp only [convert_wind_vectors_to_speed_and_dir, np_degrees, harct]
    exact mul_neg_of_neg_of_pos hneg hc
  linarith [hcl.1]

/-- Claim C3 (amended): the wind conversion returns
`speed = sqrt(u² + v²)` and `direction = atan2(v, u)` in degrees with no
normalization — the direction always lies in `(-180, 180]`; in
particular, for `u = 3`, `v = 4` the speed is 5 and the returned
direction does lie in `[0, 360)`. -/
theorem C3_wind_conversion :
    (∀ u v : ℝ, -180 < (convert_wind_vectors_to_speed_and_dir u v).2 ∧
      (convert_wind_vectors_to_speed_and_dir u v).2 ≤ 180) ∧
    (convert_wind_vectors_to_speed_and_dir 3 4).1 = 5 ∧
    0 ≤ (convert_wind_vectors_to_speed_and_dir 3 4).2 ∧
    (convert_wind_vectors_to_speed_and_dir 3 4).2 < 360 := by
  have hpi := Real.pi_pos
  have hc : (0:ℝ) < 180 / Real.pi := by positivity
  have h3 : (0:ℝ) < 3 := by norm_num
  have harct : np_arctan2 4 3 = Real.arctan ((4:ℝ) / 3) := by
    rw [np_arctan2, if_pos h3]
  refine ⟨?_, ?_, ?_, ?_⟩
  · intro u v
    obtain ⟨hb1, hb2⟩ := np_arctan2_mem v u
    exact np_degrees_bounds _ hb1 hb2
  · show Real.sqrt ((3:ℝ) ^ 2 + 4 ^ 2) = 5
    rw [show ((3:ℝ) ^ 2 + 4 ^ 2) = 5 ^ 2 by norm_num]
    exact Real.sqrt_sq (by norm_num)
  · show 0 ≤ np_degrees (np_arctan2 4 3)
    have hpos : 0 ≤ Real.arctan ((4:ℝ) / 3) := by
      have hge : (0:ℝ) ≤ 4 / 3 := by norm_num
      have hle := Real.arctan_strictMono.monotone hge
      rw [Real.arctan_zero] at hle
      exact hle
    rw [harct, np_degrees]
    exact mul_nonneg hpos (le_of_lt hc)
  · show np_degrees (np_arctan2 4 3) < 360
    have hlt := Real.arctan_lt_pi_div_two ((4:ℝ) / 3)
    have he : Real.pi / 2 * (180 / Real.pi) = 90 := by
      field_simp
      ring
    rw [harct, np_degrees]
    linarith [mul_lt_mul_of_pos_right hlt hc]

/-- Witness for C9: a one-row table, looked up at its own identifier and
at an absent one. -/
theorem C9_station_lookup_witness :
    get_lat_long_by_wmo_index [⟨722195, 33, -84⟩] 722195 = Except.ok (33, -84) ∧
    get_lat_long_by_wmo_index [⟨722195, 33, -84⟩] 724230 = Except.error PyErr.indexError := by
  constructor
  · obtain ⟨r, hmem, hwmo, heq⟩ :=
      (C9_station_lookup [⟨722195, 33, -84⟩] 722195).1 ⟨⟨722195, 33, -84⟩, by simp, rfl⟩
    rw [List.mem_singleton] at hmem
    subst hmem
    exact heq
  · exact (C9_station_lookup [⟨722195, 33, -84⟩] 724230).2
      (by
        intro r hr
        rw [List.mem_singleton] at hr
        subst hr
        decide)
